import Mathlib

/-!
Verification of the SENS_HAND core against its specification.

The definitions below are a shallow embedding of the Python sources:
  * `src/core/feetech_protocol.py` — packet framing, checksum, signed-word
    encoding, retry loops;
  * `src/core/servo.py` — per-servo command validation/clamping and the
    invert transform;
  * `src/core/servo_manager.py` — batched position writes, calibration
    state machine, limit persistence;
  * `src/core/recorder.py` — recording frames, save/load serialization,
    recording/playback state machine, realtime playback.

Python machine integers are modelled as `Nat`/`Int` with explicit masks
(`x &&& 0xFF`, `x % 256`, ...); Python `None`/exceptions are modelled with
`Option` and explicit outcome types.
-/

namespace SensHand

/-! ## Protocol codec (`src/core/feetech_protocol.py`) -/

/-- Python `(~s) & 0xFF` for a nonnegative int `s`: bitwise NOT of `s`
truncated to one byte, i.e. `255 - s % 256`. -/
def notByte (s : Nat) : Nat := 255 - s % 256

/-- `FeetchProtocol._calculate_checksum`: sums `packet[2:-1]` (skipping the
two header bytes and the trailing checksum position) and returns
`(~checksum) & 0xFF`. -/
def calculate_checksum (packet : List Nat) : Nat :=
  notByte ((packet.drop 2).dropLast.sum)

/-- `FeetchProtocol._build_packet`: `length = len(params) + 2`;
`packet = HEADER + [servo_id, length, instruction] + params + [0]` and the
trailing placeholder is overwritten with `_calculate_checksum(packet)`. -/
def build_packet (servo_id instruction : Nat) (params : List Nat) : List Nat :=
  let length := params.length + 2
  let packet := [0xFF, 0xFF] ++ [servo_id, length, instruction] ++ params ++ [0]
  packet.dropLast ++ [calculate_checksum packet]

/-- Receive-side checksum verification in `_send_and_receive`:
`response[-1] == self._calculate_checksum(list(response))`. -/
def verify_checksum (response : List Nat) : Bool :=
  response.getLast? == some (calculate_checksum response)

/-- `write_word`'s signed-value conversion: `if value < 0:
value = (1 << 15) | (-value)` (sign bit on magnitude, not two's
complement). -/
def encode_word (value : Int) : Nat :=
  if value < 0 then (1 <<< 15) ||| (-value).toNat else value.toNat

/-- `write_word`: `low_byte = value & 0xFF`. -/
def word_low_byte (value : Int) : Nat := encode_word value &&& 0xFF

/-- `write_word`: `high_byte = (value >> 8) & 0xFF`. -/
def word_high_byte (value : Int) : Nat := (encode_word value >>> 8) &&& 0xFF

/-- `read_word`'s decoding of the two value bytes of a response:
`value = (high_byte << 8) | low_byte`, and if BIT15 is set the result is
`-(value & 0x7FFF)`. -/
def decode_word (low_byte high_byte : Nat) : Int :=
  let value := (high_byte <<< 8) ||| low_byte
  if value &&& 0x8000 ≠ 0 then -((value &&& 0x7FFF : Nat) : Int) else (value : Int)

/-- `write_word` builds a write packet whose parameters are the register
address followed by the little-endian encoded word. -/
def write_word_packet (servo_id address : Nat) (value : Int) : List Nat :=
  build_packet servo_id 0x03 [address, word_low_byte value, word_high_byte value]

/-! Bridging lemmas between the bitwise operators used by the source and
plain arithmetic. -/

theorem and_255_eq_mod (x : Nat) : x &&& 255 = x % 256 := by
  simpa using Nat.and_pow_two_sub_one_eq_mod x 8

theorem and_32767_eq_mod (x : Nat) : x &&& 32767 = x % 32768 := by
  simpa using Nat.and_pow_two_sub_one_eq_mod x 15

theorem shiftRight_8_eq_div (x : Nat) : x >>> 8 = x / 256 := by
  simpa using Nat.shiftRight_eq_div_pow x 8

theorem shiftLeft_8_or_eq (a b : Nat) (hb : b < 256) :
    (a <<< 8) ||| b = a * 256 + b := by
  have h := Nat.mul_add_lt_is_or (i := 8) (b := b) (by simpa using hb) a
  have ha : a <<< 8 = a * 256 := by simpa using Nat.shiftLeft_eq a 8
  calc (a <<< 8) ||| b = 2 ^ 8 * a ||| b := by rw [ha]; ring_nf
    _ = 2 ^ 8 * a + b := (h).symm
    _ = a * 256 + b := by ring

theorem sign_bit_or_eq (m : Nat) (hm : m < 32768) :
    (1 <<< 15) ||| m = 32768 + m := by
  have h := Nat.mul_add_lt_is_or (i := 15) (b := m) (by simpa using hm) 1
  have h15 : (1 : Nat) <<< 15 = 32768 := by decide
  calc (1 <<< 15) ||| m = 2 ^ 15 * 1 ||| m := by rw [h15]
    _ = 2 ^ 15 * 1 + m := (h).symm
    _ = 32768 + m := by norm_num

theorem and_bit15_eq_zero (n : Nat) (h : n < 32768) : n &&& 32768 = 0 := by
  have h2 : (32768 : Nat) = 2 ^ 15 := by norm_num
  rw [h2, Nat.and_two_pow]
  have : n.testBit 15 = false := Nat.testBit_lt_two_pow (by simpa using h)
  simp [this]

theorem and_bit15_ne_zero (n : Nat) (h1 : 32768 ≤ n) (h2 : n < 65536) :
    n &&& 32768 ≠ 0 := by
  have hpow : (32768 : Nat) = 2 ^ 15 := by norm_num
  have ht : n.testBit 15 = true := by
    rw [Nat.testBit_to_div_mod]
    have hdiv : n / 32768 = 1 := by omega
    norm_num [hdiv]
  rw [hpow, Nat.and_two_pow, ht]
  simp

theorem encode_word_of_nonneg (v : Int) (h : 0 ≤ v) : encode_word v = v.toNat := by
  unfold encode_word
  rw [if_neg (by omega)]

theorem encode_word_of_neg (v : Int) (h : v < 0) (h2 : -32768 < v) :
    encode_word v = 32768 + (-v).toNat := by
  unfold encode_word
  rw [if_pos h, sign_bit_or_eq _ (by omega)]

/-- C2 (confirmed): for every signed word `v` representable by the
sign-bit-on-magnitude scheme (`-32767 ≤ v ≤ 32767`), decoding the two wire
bytes produced by `write_word`'s encoding yields `v` again, including
`v = 0` and the extreme representable values. -/
theorem word_encode_decode_roundtrip (v : Int) (h1 : -32767 ≤ v) (h2 : v ≤ 32767) :
    decode_word (word_low_byte v) (word_high_byte v) = v := by
  simp only [decode_word, word_low_byte, word_high_byte]
  rcases le_or_lt 0 v with hv | hv
  · have he : encode_word v = v.toNat := encode_word_of_nonneg v hv
    rw [he, and_255_eq_mod, shiftRight_8_eq_div, and_255_eq_mod]
    have hlow : v.toNat % 256 < 256 := Nat.mod_lt _ (by norm_num)
    rw [shiftLeft_8_or_eq _ _ hlow]
    have hhigh : v.toNat / 256 % 256 = v.toNat / 256 := Nat.mod_eq_of_lt (by omega)
    rw [hhigh]
    have hval : v.toNat / 256 * 256 + v.toNat % 256 = v.toNat := by omega
    rw [hval]
    have hz : v.toNat &&& 32768 = 0 := and_bit15_eq_zero _ (by omega)
    rw [if_neg (by simp [hz])]
    omega
  · have he : encode_word v = 32768 + (-v).toNat := encode_word_of_neg v hv (by omega)
    rw [he, and_255_eq_mod, shiftRight_8_eq_div, and_255_eq_mod]
    have hlow : (32768 + (-v).toNat) % 256 < 256 := Nat.mod_lt _ (by norm_num)
    rw [shiftLeft_8_or_eq _ _ hlow]
    have hhigh : (32768 + (-v).toNat) / 256 % 256 = (32768 + (-v).toNat) / 256 :=
      Nat.mod_eq_of_lt (by omega)
    rw [hhigh]
    have hval : (32768 + (-v).toNat) / 256 * 256 + (32768 + (-v).toNat) % 256
        = 32768 + (-v).toNat := by omega
    rw [hval]
    have hnz : (32768 + (-v).toNat) &&& 32768 ≠ 0 :=
      and_bit15_ne_zero _ (by omega) (by omega)
    rw [if_pos (by simpa using hnz), and_32767_eq_mod]
    have : (32768 + (-v).toNat) % 32768 = (-v).toNat := by omega
    rw [this]
    omega

/-- Witness for C2 at `v = 0`, the most-negative and the most-positive
representable values. -/
theorem word_encode_decode_roundtrip_witness :
    decode_word (word_low_byte 0) (word_high_byte 0) = 0 ∧
    decode_word (word_low_byte (-32767)) (word_high_byte (-32767)) = -32767 ∧
    decode_word (word_low_byte 32767) (word_high_byte 32767) = 32767 :=
  ⟨word_encode_decode_roundtrip 0 (by decide) (by decide),
   word_encode_decode_roundtrip (-32767) (by decide) (by decide),
   word_encode_decode_roundtrip 32767 (by decide) (by decide)⟩

/-- `_build_packet` written out explicitly: header, then the checksummed
region `[servo_id, length, instruction] ++ params`, then the checksum. -/
theorem build_packet_eq (servo_id instruction : Nat) (params : List Nat) :
    build_packet servo_id instruction params =
      255 :: 255 :: ((servo_id :: (params.length + 2) :: instruction :: params) ++
        [notByte ((servo_id :: (params.length + 2) :: instruction :: params).sum)]) := by
  unfold build_packet calculate_checksum
  have hd : (instruction :: (params ++ [0])).dropLast = instruction :: params := by
    rw [← List.cons_append, List.dropLast_concat]
  simp [List.dropLast_append_cons, hd, List.sum_append, List.sum_cons, Nat.add_assoc]

/-- Updating one entry of a `Nat` list shifts its sum by the difference
between the new and the old entry (stated additively to stay in `Nat`). -/
theorem sum_set_add (l : List Nat) (j : Nat) (b : Nat) (h : j < l.length) :
    (l.set j b).sum + l.getD j 0 = l.sum + b := by
  induction l generalizing j with
  | nil => simp at h
  | cons x xs ih =>
    cases j with
    | zero => simp [List.sum_cons]; omega
    | succ j =>
      have hx := ih j (by simpa using h)
      simp only [List.set_cons_succ, List.sum_cons, List.getD_cons_succ]
      omega

theorem getD_lt_256 (l : List Nat) (j : Nat) (h : j < l.length)
    (hb : ∀ x ∈ l, x < 256) : l.getD j 0 < 256 := by
  induction l generalizing j with
  | nil => simp at h
  | cons x xs ih =>
    cases j with
    | zero => exact hb x (by simp)
    | succ j =>
      exact ih j (by simpa using h) (fun y hy => hb y (by simp [hy]))

theorem getD_append_left {l t : List Nat} (j : Nat) (h : j < l.length) :
    (l ++ t).getD j 0 = l.getD j 0 := by
  simp [List.getD_eq_getElem?_getD, List.getElem?_append_left h]

theorem getD_append_self {l : List Nat} (c : Nat) :
    (l ++ [c]).getD l.length 0 = c := by
  simp [List.getD_eq_getElem?_getD, List.getElem?_append_right (Nat.le_refl _)]

/-- C3 (confirmed): a packet built by `_build_packet` carries
`checksum = (~sum(id, length, instruction, params)) & 0xFF` with
`length = len(params) + 2`, so it passes the receive-side checksum
verification; and flipping any single non-header byte (any byte from
index 2 on, checksum included) to a different byte value makes
verification fail. -/
theorem built_packet_checksum (servo_id instruction : Nat) (params : List Nat)
    (hid : servo_id < 256) (hinstr : instruction < 256)
    (hparams : ∀ p ∈ params, p < 256) (hplen : params.length ≤ 253)
    (i b : Nat) (h2 : 2 ≤ i) (hi : i < (build_packet servo_id instruction params).length)
    (hb : b < 256) (hne : b ≠ (build_packet servo_id instruction params).getD i 0) :
    verify_checksum (build_packet servo_id instruction params) = true ∧
    verify_checksum ((build_packet servo_id instruction params).set i b) = false := by
  rw [build_packet_eq] at hi hne ⊢
  set body := servo_id :: (params.length + 2) :: instruction :: params with hbody
  set chk := notByte body.sum with hchk
  have hbodyb : ∀ x ∈ body, x < 256 := by
    intro x hx
    rw [hbody] at hx
    simp only [List.mem_cons] at hx
    rcases hx with rfl | rfl | rfl | hx
    · exact hid
    · omega
    · exact hinstr
    · exact hparams x hx
  have hcons : (255 :: 255 :: (body ++ [chk]) : List Nat) = (255 :: 255 :: body) ++ [chk] := by
    simp
  constructor
  · have hlast : (255 :: 255 :: (body ++ [chk]) : List Nat).getLast? = some chk := by
      rw [hcons, List.getLast?_concat]
    simp [verify_checksum, calculate_checksum, hlast, List.dropLast_concat, hchk]
  · obtain ⟨j, rfl⟩ : ∃ j, i = j + 2 := ⟨i - 2, by omega⟩
    have hlen : (255 :: 255 :: (body ++ [chk])).length = body.length + 3 := by simp
    have hj : j < body.length + 1 := by
      rw [hlen] at hi; omega
    have hset : (255 :: 255 :: (body ++ [chk])).set (j + 2) b =
        255 :: 255 :: ((body ++ [chk]).set j b) := by
      simp
    have hgetD : (255 :: 255 :: (body ++ [chk])).getD (j + 2) 0 =
        (body ++ [chk]).getD j 0 := by
      simp
    rw [hgetD] at hne
    rw [hset]
    rcases Nat.lt_or_ge j body.length with hjl | hjr
    · -- a byte of the checksummed region changed
      have hsplit : (body ++ [chk]).set j b = body.set j b ++ [chk] :=
        List.set_append_left _ _ hjl
      rw [getD_append_left j hjl] at hne
      have hold : body.getD j 0 < 256 := getD_lt_256 body j hjl hbodyb
      have hsum : (body.set j b).sum + body.getD j 0 = body.sum + b :=
        sum_set_add body j b hjl
      have hnechk : chk ≠ notByte ((body.set j b).sum) := by
        rw [hchk]
        unfold notByte
        omega
      rw [hsplit]
      show verify_checksum ((255 :: 255 :: body.set j b) ++ [chk]) = false
      simp only [verify_checksum, calculate_checksum, List.getLast?_concat]
      simp [List.dropLast_append_cons, hnechk]
    · -- the checksum byte itself changed
      have hj' : j = body.length := by omega
      subst hj'
      have hsplit : (body ++ [chk]).set body.length b = body ++ [b] := by
        rw [List.set_append_right _ _ (Nat.le_refl _)]
        simp
      rw [getD_append_self] at hne
      rw [hsplit]
      show verify_checksum ((255 :: 255 :: body) ++ [b]) = false
      simp only [verify_checksum, calculate_checksum, List.getLast?_concat]
      simp [List.dropLast_append_cons, hne]

/-- Witness for C3: a concrete built packet passes verification, and
flipping its id byte (index 2) makes verification fail. -/
theorem built_packet_checksum_witness :
    verify_checksum (build_packet 1 3 [42, 7]) = true ∧
    verify_checksum ((build_packet 1 3 [42, 7]).set 2 0) = false :=
  built_packet_checksum 1 3 [42, 7] (by decide) (by decide) (by decide) (by decide)
    2 0 (by decide) (by decide) (by decide) (by decide)

/-! ## Transport outcomes and retry loops (`_send_packet`, `_send_and_receive`) -/

/-- One call to `serial_manager.write`: it returns a success bool
(`SerialManager.write` returns `False` on a transmit failure) or raises. -/
inductive WriteOutcome where
  | ok (success : Bool)
  | exn
deriving DecidableEq

/-- One call to `serial_manager.read`: it returns the received bytes,
returns `None` (timeout / nothing received), or raises. -/
inductive ReadOutcome where
  | value (resp : List Nat)
  | nothing
  | exn
deriving DecidableEq

/-- `_send_packet`'s retry loop from a given attempt index. The transport
is a function from the attempt index to that attempt's write outcome; the
second component counts `serial_manager.write` calls. Exceptions are
caught by the `try/except` around the body, so the loop simply proceeds
to the next attempt. -/
def send_packet_from (w : Nat → WriteOutcome) (attempt : Nat) : Nat → Bool × Nat
  | 0 => (false, 0)
  | fuel + 1 =>
    match w attempt with
    | .ok true => (true, 1)
    | .ok false =>
      let r := send_packet_from w (attempt + 1) fuel
      (r.1, r.2 + 1)
    | .exn =>
      let r := send_packet_from w (attempt + 1) fuel
      (r.1, r.2 + 1)

/-- `_send_packet`: `for attempt in range(self.max_retries)` with
`max_retries = 3`; returns `False` after the loop. -/
def send_packet (w : Nat → WriteOutcome) : Bool × Nat :=
  send_packet_from w 0 3

/-- `_send_and_receive`'s retry loop: each attempt clears the buffers,
writes the packet (`continue` when the write reports failure, caught
exception otherwise), then reads `expected_length` bytes and accepts the
response only if it is long enough and its checksum verifies. The second
component counts `serial_manager.write` calls. -/
def send_and_receive_from (w : Nat → WriteOutcome) (rd : Nat → ReadOutcome)
    (expected : Nat) (attempt : Nat) : Nat → Option (List Nat) × Nat
  | 0 => (none, 0)
  | fuel + 1 =>
    match w attempt with
    | .ok true =>
      match rd attempt with
      | .value resp =>
        if expected ≤ resp.length ∧ verify_checksum resp then (some resp, 1)
        else
          let r := send_and_receive_from w rd expected (attempt + 1) fuel
          (r.1, r.2 + 1)
      | .nothing =>
        let r := send_and_receive_from w rd expected (attempt + 1) fuel
        (r.1, r.2 + 1)
      | .exn =>
        let r := send_and_receive_from w rd expected (attempt + 1) fuel
        (r.1, r.2 + 1)
    | .ok false =>
      let r := send_and_receive_from w rd expected (attempt + 1) fuel
      (r.1, r.2 + 1)
    | .exn =>
      let r := send_and_receive_from w rd expected (attempt + 1) fuel
      (r.1, r.2 + 1)

/-- `_send_and_receive` with `max_retries = 3`; returns `None` after the
loop. -/
def send_and_receive (w : Nat → WriteOutcome) (rd : Nat → ReadOutcome)
    (expected : Nat) : Option (List Nat) × Nat :=
  send_and_receive_from w rd expected 0 3

/-- `write_byte`: build a write packet for `[address, value & 0xFF]` and
send it. The transport behaviour may depend on the transmitted packet. -/
def write_byte (w : List Nat → Nat → WriteOutcome) (servo_id address value : Nat) :
    Bool × Nat :=
  send_packet (w (build_packet servo_id 0x03 [address, value &&& 0xFF]))

/-- `write_word`: build a write packet for the sign-magnitude encoded word
and send it. -/
def write_word (w : List Nat → Nat → WriteOutcome) (servo_id address : Nat) (value : Int) :
    Bool × Nat :=
  send_packet (w (write_word_packet servo_id address value))

/-- `read_byte`: request one byte (`expected_length = 7`) and return
`response[5]` when a valid response of at least 6 bytes arrived. -/
def read_byte (w : List Nat → Nat → WriteOutcome) (rd : Nat → ReadOutcome)
    (servo_id address : Nat) : Option Nat × Nat :=
  let r := send_and_receive (w (build_packet servo_id 0x02 [address, 1])) rd 7
  (match r.1 with
   | some resp => if 6 ≤ resp.length then some (resp.getD 5 0) else none
   | none => none, r.2)

/-- `read_word`: request two bytes (`expected_length = 8`) and decode
`response[5]`/`response[6]` when a valid response of at least 7 bytes
arrived. -/
def read_word (w : List Nat → Nat → WriteOutcome) (rd : Nat → ReadOutcome)
    (servo_id address : Nat) : Option Int × Nat :=
  let r := send_and_receive (w (build_packet servo_id 0x02 [address, 2])) rd 8
  (match r.1 with
   | some resp => if 7 ≤ resp.length then some (decode_word (resp.getD 5 0) (resp.getD 6 0)) else none
   | none => none, r.2)

/-- One attempt of `_send_and_receive` fails: the write raises, the write
reports a transmit failure, or the write succeeds but the read raises,
times out, is short, or has a checksum mismatch. -/
def attempt_fails (w : Nat → WriteOutcome) (rd : Nat → ReadOutcome)
    (expected i : Nat) : Prop :=
  w i = .exn ∨ w i = .ok false ∨
    (w i = .ok true ∧ (rd i = .exn ∨ rd i = .nothing ∨
      ∃ r, rd i = .value r ∧ (r.length < expected ∨ verify_checksum r = false)))

theorem send_packet_all_fail (w : Nat → WriteOutcome)
    (h : ∀ i, i < 3 → w i ≠ .ok true) : send_packet w = (false, 3) := by
  have h0 := h 0 (by omega)
  have h1 := h 1 (by omega)
  have h2 := h 2 (by omega)
  unfold send_packet send_packet_from
  cases hw0 : w 0 with
  | ok s =>
    cases s with
    | true => exact absurd hw0 h0
    | false =>
      simp only
      unfold send_packet_from
      cases hw1 : w 1 with
      | ok s1 =>
        cases s1 with
        | true => exact absurd hw1 h1
        | false =>
          simp only
          unfold send_packet_from
          cases hw2 : w 2 with
          | ok s2 =>
            cases s2 with
            | true => exact absurd hw2 h2
            | false => rfl
          | exn => rfl
      | exn =>
        simp only
        unfold send_packet_from
        cases hw2 : w 2 with
        | ok s2 =>
          cases s2 with
          | true => exact absurd hw2 h2
          | false => rfl
        | exn => rfl
  | exn =>
    simp only
    unfold send_packet_from
    cases hw1 : w 1 with
    | ok s1 =>
      cases s1 with
      | true => exact absurd hw1 h1
      | false =>
        simp only
        unfold send_packet_from
        cases hw2 : w 2 with
        | ok s2 =>
          cases s2 with
          | true => exact absurd hw2 h2
          | false => rfl
        | exn => rfl
    | exn =>
      simp only
      unfold send_packet_from
      cases hw2 : w 2 with
      | ok s2 =>
        cases s2 with
        | true => exact absurd hw2 h2
        | false => rfl
      | exn => rfl

theorem send_and_receive_fail_step (w : Nat → WriteOutcome) (rd : Nat → ReadOutcome)
    (expected i fuel : Nat) (h : attempt_fails w rd expected i) :
    send_and_receive_from w rd expected i (fuel + 1) =
      ((send_and_receive_from w rd expected (i + 1) fuel).1,
       (send_and_receive_from w rd expected (i + 1) fuel).2 + 1) := by
  conv_lhs => rw [send_and_receive_from]
  rcases h with hw | hw | ⟨hw, hr⟩
  · rw [hw]
  · rw [hw]
  · rw [hw]
    rcases hr with hr | hr | ⟨r, hr, hfail⟩
    · rw [hr]
    · rw [hr]
    · rw [hr]
      have hno : ¬(expected ≤ r.length ∧ verify_checksum r = true) := by
        rcases hfail with hlen | hchk
        · intro hc; omega
        · intro hc; rw [hchk] at hc; exact absurd hc.2 (by simp)
      simp only [hno, if_false]

theorem send_and_receive_all_fail (w : Nat → WriteOutcome) (rd : Nat → ReadOutcome)
    (expected : Nat) (h : ∀ i, i < 3 → attempt_fails w rd expected i) :
    send_and_receive w rd expected = (none, 3) := by
  unfold send_and_receive
  rw [send_and_receive_fail_step w rd expected 0 2 (h 0 (by omega)),
    send_and_receive_fail_step w rd expected 1 1 (h 1 (by omega)),
    send_and_receive_fail_step w rd expected 2 0 (h 2 (by omega))]
  rfl

/-- C8 (confirmed): for each of the four operations, when the transport
fails on every attempt (for the write operations: every transmit fails;
for the read operations: every attempt ends in a transmit failure,
timeout, short response, or checksum mismatch), exactly 3 send attempts
are made and the operation returns a failure result (`false` / `none`).
Exceptions are modelled as `WriteOutcome.exn`/`ReadOutcome.exn` and are
absorbed by the loops: each operation is a total function into
`Bool`/`Option`, never an unhandled exception. -/
theorem retry_exhaustion (w : List Nat → Nat → WriteOutcome) (rd : Nat → ReadOutcome)
    (servo_id address value : Nat) (wvalue : Int) :
    ((∀ packet i, i < 3 → w packet i ≠ .ok true) →
      write_byte w servo_id address value = (false, 3) ∧
      write_word w servo_id address wvalue = (false, 3)) ∧
    ((∀ packet i, i < 3 → attempt_fails (w packet) rd 7 i) →
      read_byte w rd servo_id address = (none, 3)) ∧
    ((∀ packet i, i < 3 → attempt_fails (w packet) rd 8 i) →
      read_word w rd servo_id address = (none, 3)) := by
  refine ⟨fun hw => ⟨?_, ?_⟩, fun hf => ?_, fun hf => ?_⟩
  · exact send_packet_all_fail _ (hw _)
  · exact send_packet_all_fail _ (hw _)
  · unfold read_byte
    rw [send_and_receive_all_fail _ _ _ (hf _)]
  · unfold read_word
    rw [send_and_receive_all_fail _ _ _ (hf _)]

/-- Witness for C8: a transport that raises on every write makes all four
operations fail after exactly 3 send attempts. -/
theorem retry_exhaustion_witness :
    write_byte (fun _ _ => .exn) 1 40 1 = (false, 3) ∧
    write_word (fun _ _ => .exn) 1 42 (-100) = (false, 3) ∧
    read_byte (fun _ _ => .exn) (fun _ => .exn) 1 56 = (none, 3) ∧
    read_word (fun _ _ => .exn) (fun _ => .exn) 1 56 = (none, 3) := by
  have h := retry_exhaustion (fun _ _ => .exn) (fun _ => .exn) 1 40 1 (-100)
  have hw : ∀ (packet : List Nat) i, i < 3 → (fun _ _ => WriteOutcome.exn) packet i ≠ .ok true :=
    fun _ _ _ h => WriteOutcome.noConfusion h
  have hf7 : ∀ (packet : List Nat) i, i < 3 →
      attempt_fails ((fun _ _ => WriteOutcome.exn) packet) (fun _ => ReadOutcome.exn) 7 i :=
    fun _ _ _ => Or.inl rfl
  have hf8 : ∀ (packet : List Nat) i, i < 3 →
      attempt_fails ((fun _ _ => WriteOutcome.exn) packet) (fun _ => ReadOutcome.exn) 8 i :=
    fun _ _ _ => Or.inl rfl
  have h1 := (retry_exhaustion (fun _ _ => .exn) (fun _ => .exn) 1 40 1 (-100)).1 hw
  have h2 := (retry_exhaustion (fun _ _ => .exn) (fun _ => .exn) 1 42 1 (-100)).1 hw
  have h3 := (retry_exhaustion (fun _ _ => .exn) (fun _ => .exn) 1 56 1 (-100)).2.1 hf7
  have h4 := (retry_exhaustion (fun _ _ => .exn) (fun _ => .exn) 1 56 1 (-100)).2.2 hf8
  exact ⟨h1.1, h2.2, h3, h4⟩

/-! ## Servo model (`src/core/servo.py`) -/

/-- The `Servo` state the claims depend on: connectivity (`False` until a
ping succeeds), the calibrated register range `min_reg`/`max_reg`
(defaults `-32767`/`32767`), the orientation `invert` flag (default
`False`) and the cached command torque (default `500`). -/
structure Servo where
  connected : Bool := false
  min_reg : Int := -32767
  max_reg : Int := 32767
  invert : Bool := false
  torque_value : Int := 500
deriving DecidableEq

/-- One `WritePosEx` bus command as issued by the servo layer. -/
structure PosCmd where
  position : Int
  speed : Int
  accel : Int
  torque : Int
deriving DecidableEq

/-- `Servo.set_goal_position(position, speed=100, accel=50)`: positions
outside `[min_reg, max_reg]` are clamped with
`max(min_reg, min(max_reg, position))`, then the invert transform negates
the result, and `WritePosEx` is issued with the cached torque value. The
returned value is the issued bus command. -/
def set_goal_position (sv : Servo) (position : Int)
    (speed : Int := 100) (accel : Int := 50) : PosCmd :=
  let clamped := if position < sv.min_reg ∨ position > sv.max_reg
    then max sv.min_reg (min sv.max_reg position) else position
  let actual_position := if sv.invert then -clamped else clamped
  { position := actual_position, speed := speed, accel := accel, torque := sv.torque_value }

/-- `Servo.set_goal_position_with_torque(position, torque, speed=100,
accel=50)`: positions outside `[min_reg, max_reg]` are rejected (`False`,
no bus write, modelled as `none`); otherwise the invert transform is
applied and `WritePosEx` is issued with the given parameters. The update
of the cached `torque_value` is not modelled (no claim depends on it). -/
def set_goal_position_with_torque (sv : Servo) (position torque : Int)
    (speed : Int := 100) (accel : Int := 50) : Option PosCmd :=
  if position < sv.min_reg ∨ position > sv.max_reg then none
  else
    let actual_position := if sv.invert then -position else position
    some { position := actual_position, speed := speed, accel := accel, torque := torque }

/-- C4 counterexample: for a servo calibrated to `[100, 200]` with the
invert flag set, `set_goal_position 150` writes register value `-150`,
which is outside `[100, 200]` — the claim that the written register value
is never outside `[min, max]` is false. -/
theorem set_goal_position_outside_range :
    (set_goal_position { min_reg := 100, max_reg := 200, invert := true } 150).position = -150 ∧
    ¬((100 : Int) ≤ -150 ∧ (-150 : Int) ≤ 200) := by
  constructor
  · rfl
  · decide

/-- C4 (amended): `set_goal_position` clamps the commanded position into
the calibrated `[min_reg, max_reg]` range and writes the invert transform
of that clamped value; the clamped value itself is never outside
`[min_reg, max_reg]`, and whenever the invert flag is off the written
register value is never outside `[min_reg, max_reg]`, for all inputs
including values far outside the range. -/
theorem set_goal_position_clamped (sv : Servo) (position speed accel : Int)
    (hrange : sv.min_reg ≤ sv.max_reg) :
    (∃ p, sv.min_reg ≤ p ∧ p ≤ sv.max_reg ∧
      (set_goal_position sv position speed accel).position =
        (if sv.invert then -p else p)) ∧
    (sv.invert = false →
      sv.min_reg ≤ (set_goal_position sv position speed accel).position ∧
      (set_goal_position sv position speed accel).position ≤ sv.max_reg) := by
  unfold set_goal_position
  by_cases hout : position < sv.min_reg ∨ position > sv.max_reg
  · refine ⟨⟨max sv.min_reg (min sv.max_reg position), by omega, by omega, by
      simp [hout]⟩, fun hinv => ?_⟩
    simp [hout, hinv]
    omega
  · refine ⟨⟨position, by omega, by omega, by simp [hout]⟩, fun hinv => ?_⟩
    simp [hout, hinv]
    omega

/-- Witness for C4 at a far-out-of-range input on a non-inverted servo:
commanding `999999` on a servo calibrated to `[-100, 100]` writes `100`. -/
theorem set_goal_position_clamped_witness :
    (∃ p, (-100 : Int) ≤ p ∧ p ≤ (100 : Int) ∧
      (set_goal_position { min_reg := -100, max_reg := 100 } 999999 100 50).position =
        (if ({ min_reg := -100, max_reg := 100 } : Servo).invert then -p else p)) ∧
    (({ min_reg := -100, max_reg := 100 } : Servo).invert = false →
      (-100 : Int) ≤ (set_goal_position { min_reg := -100, max_reg := 100 } 999999 100 50).position ∧
      (set_goal_position { min_reg := -100, max_reg := 100 } 999999 100 50).position ≤ 100) :=
  set_goal_position_clamped { min_reg := -100, max_reg := 100 } 999999 100 50 (by decide)

/-! ## Recording frames and persistence (`src/core/recorder.py`) -/

/-- A Python dict key: the recorder's live frames are keyed by `int`
servo ids, while `json.load` produces `str` keys. -/
inductive PyKey where
  | pint (n : Int)
  | pstr (s : String)
deriving DecidableEq

/-- `str(key)`: how `json.dump` serializes a dict key. -/
def PyKey.toJsonKey : PyKey → String
  | pint n => toString n
  | pstr s => s

/-- `RecordingFrame`: timestamp (seconds since recording start) plus the
id → value maps. The constructor's filtering of `None` position values
has no effect here since values are total `Int`s. -/
structure RecordingFrame where
  timestamp : ℚ
  positions : List (PyKey × Int)
  speeds : List (PyKey × Int) := []
  accelerations : List (PyKey × Int) := []
  torques : List (PyKey × Int) := []
deriving DecidableEq

/-- One frame as stored in the JSON file: all dict keys are strings. -/
structure JsonFrame where
  timestamp : ℚ
  positions : List (String × Int)
  speeds : List (String × Int)
  accelerations : List (String × Int)
  torques : List (String × Int)
deriving DecidableEq

/-- `RecordingFrame.to_dict` followed by `json.dump`: every dict key is
serialized with `str`. -/
def frame_to_json (f : RecordingFrame) : JsonFrame where
  timestamp := f.timestamp
  positions := f.positions.map (fun kv => (kv.1.toJsonKey, kv.2))
  speeds := f.speeds.map (fun kv => (kv.1.toJsonKey, kv.2))
  accelerations := f.accelerations.map (fun kv => (kv.1.toJsonKey, kv.2))
  torques := f.torques.map (fun kv => (kv.1.toJsonKey, kv.2))

/-- `RecordingFrame.from_dict` applied to `json.load` output: the string
keys are passed through unchanged — there is no conversion back to `int`
ids. -/
def frame_from_json (jf : JsonFrame) : RecordingFrame where
  timestamp := jf.timestamp
  positions := jf.positions.map (fun kv => (PyKey.pstr kv.1, kv.2))
  speeds := jf.speeds.map (fun kv => (PyKey.pstr kv.1, kv.2))
  accelerations := jf.accelerations.map (fun kv => (PyKey.pstr kv.1, kv.2))
  torques := jf.torques.map (fun kv => (PyKey.pstr kv.1, kv.2))

/-- The saved recording file: `meta` fields and the serialized frames. -/
structure RecordingFile where
  mode : String
  freq : Int
  frame_count : Nat
  duration : ℚ
  frames : List JsonFrame
deriving DecidableEq

/-- `Recorder.save_recording`: refuses when there are no frames,
otherwise writes `meta` (`mode`, `freq`, `frame_count`, `duration` = last
frame's timestamp) and the serialized frames. -/
def save_recording (mode : String) (freq : Int) (frames : List RecordingFrame) :
    Option RecordingFile :=
  if frames.isEmpty then none
  else some {
    mode := mode
    freq := freq
    frame_count := frames.length
    duration := ((frames.getLast?).map RecordingFrame.timestamp).getD 0
    frames := frames.map frame_to_json }

/-- `Recorder.load_recording`: restores `self.mode`, `self.freq` and the
frame list from the file. -/
def load_recording (file : RecordingFile) : String × Int × List RecordingFrame :=
  (file.mode, file.freq, file.frames.map frame_from_json)

/-- A one-frame recording captured live: frame positions keyed by the
`int` servo id `1`. -/
def demoFrameC5 : RecordingFrame := { timestamp := 0, positions := [(PyKey.pint 1, 500)] }

/-- C5 (code bug): saving and re-loading a one-frame recording preserves
the mode, frequency, frame count and timestamp, but the loaded frame's
position map is keyed by the string `"1"` instead of the `int` id `1`
(`json.load` stringifies dict keys and `from_dict` never converts them
back), so the loaded recording is not identical to the saved one. -/
theorem recording_roundtrip_string_keys :
    (save_recording "frame" 20 [demoFrameC5]).map load_recording =
      some ("frame", 20, [{ timestamp := 0, positions := [(PyKey.pstr "1", 500)] }]) ∧
    [({ timestamp := 0, positions := [(PyKey.pstr "1", 500)] } : RecordingFrame)] ≠
      [demoFrameC5] := by
  constructor
  · decide
  · decide

/-! ## Batched position writes (`ServoManager.set_all_positions`) and
realtime playback (`Recorder._play_realtime_mode`) -/

/-- `self.servos.get(key)`: the manager's servo dict is keyed by Python
`int` ids, so a string key never matches. -/
def dict_get (servos : Int → Option Servo) : PyKey → Option Servo
  | .pint n => servos n
  | .pstr _ => none

/-- Python `x or d` for an optional int parameter: both `None` and `0`
are falsy and are replaced by the default. -/
def orDefault (x : Option Int) (d : Int) : Int :=
  match x with
  | none => d
  | some v => if v = 0 then d else v

/-- `ServoManager.set_all_positions(positions, speed, acceleration,
torque)`: computes `default_speed = speed or 100`, `default_accel =
acceleration or 50`, `default_torque = torque or 500`, then for each
entry calls `set_goal_position_with_torque` on the connected servos and
records `False` for missing or disconnected ids. Returns the per-id
result map and the list of issued bus commands (the bus itself is
modelled as always reachable). -/
def set_all_positions (servos : Int → Option Servo) (positions : List (PyKey × Int))
    (speed accel torque : Option Int) : List (PyKey × Bool) × List (PyKey × PosCmd) :=
  match positions with
  | [] => ([], [])
  | kv :: rest =>
    let tail := set_all_positions servos rest speed accel torque
    match dict_get servos kv.1 with
    | some sv =>
      if sv.connected then
        match set_goal_position_with_torque sv kv.2 (orDefault torque 500)
            (orDefault speed 100) (orDefault accel 50) with
        | some cmd => ((kv.1, true) :: tail.1, (kv.1, cmd) :: tail.2)
        | none => ((kv.1, false) :: tail.1, tail.2)
      else ((kv.1, false) :: tail.1, tail.2)
    | none => ((kv.1, false) :: tail.1, tail.2)

/-- `Recorder._play_realtime_mode`: for each recorded frame in order
(after sleeping until the frame's speed-scaled timestamp — timing is not
modelled), the frame's positions are sent once via
`set_all_positions(frame.positions, speed=1000, acceleration=0,
torque=700)`. The result is the concatenated list of issued bus
commands. -/
def play_realtime_writes (servos : Int → Option Servo) (frames : List RecordingFrame) :
    List (PyKey × PosCmd) :=
  match frames with
  | [] => []
  | f :: rest =>
    (set_all_positions servos f.positions (some 1000) (some 0) (some 700)).2 ++
      play_realtime_writes servos rest

theorem set_goal_position_with_torque_params (sv : Servo) (p t s a : Int) (cmd : PosCmd)
    (h : set_goal_position_with_torque sv p t s a = some cmd) :
    cmd.speed = s ∧ cmd.accel = a ∧ cmd.torque = t := by
  unfold set_goal_position_with_torque at h
  split at h
  · exact absurd h (by simp)
  · cases h
    exact ⟨rfl, rfl, rfl⟩

/-- Every bus command issued by `set_all_positions` carries exactly the
defaulted motion parameters. -/
theorem set_all_positions_writes_params (servos : Int → Option Servo)
    (positions : List (PyKey × Int)) (speed accel torque : Option Int) :
    ∀ kv ∈ (set_all_positions servos positions speed accel torque).2,
      kv.2.speed = orDefault speed 100 ∧ kv.2.accel = orDefault accel 50 ∧
      kv.2.torque = orDefault torque 500 := by
  induction positions with
  | nil => simp [set_all_positions]
  | cons hd rest ih =>
    intro kv hkv
    cases hget : dict_get servos hd.1 with
    | none =>
      simp only [set_all_positions, hget] at hkv
      exact ih kv hkv
    | some sv =>
      by_cases hc : sv.connected
      · cases hcmd : set_goal_position_with_torque sv hd.2 (orDefault torque 500)
            (orDefault speed 100) (orDefault accel 50) with
        | none =>
          simp only [set_all_positions, hget, hc, if_true, hcmd] at hkv
          exact ih kv hkv
        | some cmd =>
          simp only [set_all_positions, hget, hc, if_true, hcmd, List.mem_cons] at hkv
          rcases hkv with rfl | hkv
          · have hp := set_goal_position_with_torque_params sv hd.2 _ _ _ cmd hcmd
            exact hp
          · exact ih kv hkv
      · simp only [set_all_positions, hget, hc, if_false] at hkv
        exact ih kv hkv

theorem orDefault_ne_zero (x : Option Int) (d : Int) (hd : d ≠ 0) :
    orDefault x d ≠ 0 := by
  cases x with
  | none => exact hd
  | some v =>
    show (if v = 0 then d else v) ≠ 0
    split
    · exact hd
    · assumption

/-- C10 (confirmed): in `set_all_positions`, a `speed`, `acceleration` or
`torque` argument of `0` is replaced by its default (`100`/`50`/`500`)
exactly as if it had been omitted; consequently no bus command issued
through `set_all_positions` ever carries speed 0, acceleration 0 or
torque 0, and realtime playback's `acceleration=0` requests are issued
with acceleration 50 (speed 1000, torque 700). -/
theorem zero_params_replaced_by_defaults :
    ((∀ d : Int, orDefault (some 0) d = orDefault none d) ∧
      orDefault (some 0) 100 = 100 ∧ orDefault (some 0) 50 = 50 ∧
      orDefault (some 0) 500 = 500) ∧
    (∀ (servos : Int → Option Servo) (positions : List (PyKey × Int))
      (speed accel torque : Option Int) (kv : PyKey × PosCmd),
      kv ∈ (set_all_positions servos positions speed accel torque).2 →
      kv.2.speed ≠ 0 ∧ kv.2.accel ≠ 0 ∧ kv.2.torque ≠ 0) ∧
    (∀ (servos : Int → Option Servo) (frames : List RecordingFrame) (kv : PyKey × PosCmd),
      kv ∈ play_realtime_writes servos frames →
      kv.2.speed = 1000 ∧ kv.2.accel = 50 ∧ kv.2.torque = 700) := by
  refine ⟨⟨fun d => rfl, rfl, rfl, rfl⟩, ?_, ?_⟩
  · intro servos positions speed accel torque kv hkv
    obtain ⟨hs, ha, ht⟩ := set_all_positions_writes_params servos positions speed accel torque kv hkv
    exact ⟨hs ▸ orDefault_ne_zero speed 100 (by decide),
      ha ▸ orDefault_ne_zero accel 50 (by decide),
      ht ▸ orDefault_ne_zero torque 500 (by decide)⟩
  · intro servos frames kv hkv
    induction frames with
    | nil => simp [play_realtime_writes] at hkv
    | cons f rest ih =>
      simp only [play_realtime_writes, List.mem_append] at hkv
      rcases hkv with hkv | hkv
      · obtain ⟨hs, ha, ht⟩ :=
          set_all_positions_writes_params servos f.positions (some 1000) (some 0) (some 700) kv hkv
        exact ⟨hs, ha, ht⟩
      · exact ih hkv

/-- The manager's 17-servo dict after a successful `ping_all`: default
config, all connected. -/
def demoServos : Int → Option Servo :=
  fun n => if 1 ≤ n ∧ n ≤ 17 then some { connected := true } else none

/-- Witness for C10: a concrete batched write with `speed=None`,
`acceleration=0`, `torque=0` issues a command with speed 100,
acceleration 50, torque 500 — none of them zero. -/
theorem zero_params_replaced_by_defaults_witness :
    ((PyKey.pint 1, ({ position := 100, speed := 100, accel := 50, torque := 500 } : PosCmd)) ∈
      (set_all_positions demoServos [(PyKey.pint 1, 100)] none (some 0) (some 0)).2) ∧
    ((100 : Int) ≠ 0 ∧ (50 : Int) ≠ 0 ∧ (500 : Int) ≠ 0) :=
  ⟨by decide,
    zero_params_replaced_by_defaults.2.1 demoServos [(PyKey.pint 1, 100)] none (some 0) (some 0)
      (PyKey.pint 1, { position := 100, speed := 100, accel := 50, torque := 500 }) (by decide)⟩

/-- The concrete recording of the claim: two frames one second apart with
servo 1 at positions 0 and 1000, captured at the default 20 Hz
frequency. -/
def demoFramesC1 : List RecordingFrame :=
  [{ timestamp := 0, positions := [(PyKey.pint 1, 0)] },
   { timestamp := 1, positions := [(PyKey.pint 1, 1000)] }]

/-- The register positions realtime playback emits for the concrete
recording, in emission order. -/
def emittedC1 : List Int :=
  (play_realtime_writes demoServos demoFramesC1).map (fun kv => kv.2.position)

/-- Modelled from the spec: the linear interpolation of the pair's values
at relative time `t ∈ [0, 1]` between two frames — the positions the spec
says are sent at each fixed-rate step. This formula does not occur in
`src/core/recorder.py`; it is stated only to compare the code against the
claim. -/
def spec_lerp (a b : Int) (t : ℚ) : ℚ := a + (b - a) * t

/-- C1 counterexample: for the claim's concrete recording, realtime
playback emits exactly the two recorded positions `[0, 1000]` — one send
per frame.  The linear interpolation the claim requires at the first
20 Hz step between the two frames is `50`, and no emitted position equals
`50` (there are no intermediate emissions at all), so the positions sent
between the pair's timestamps are not the linear interpolation of the
pair's values. -/
theorem realtime_playback_no_interpolation :
    emittedC1 = [0, 1000] ∧
    spec_lerp 0 1000 (1 / 20) = 50 ∧
    (50 : Int) ∉ emittedC1 := by
  refine ⟨by decide, ?_, by decide⟩
  norm_num [spec_lerp]

/-- C1 (amended): realtime playback performs no interpolation — it sends
each recorded frame's positions once, in order, each with the fixed
profile speed 1000, acceleration 0 (issued as 50 after the
`set_all_positions` default substitution) and torque 700; for the
concrete two-frame recording (positions 0 and 1000 one second apart at
20 Hz) the emitted positions are monotonically nondecreasing and the
final emitted position equals 1000. -/
theorem realtime_playback_sends_frames :
    List.Chain' (· ≤ ·) emittedC1 ∧
    emittedC1.getLast? = some 1000 ∧
    (play_realtime_writes demoServos demoFramesC1).length = demoFramesC1.length ∧
    ∀ kv ∈ play_realtime_writes demoServos demoFramesC1,
      kv.2.speed = 1000 ∧ kv.2.accel = 50 ∧ kv.2.torque = 700 := by
  have he : emittedC1 = [0, 1000] := by decide
  refine ⟨?_, by decide, by decide, by decide⟩
  rw [he]
  simp [List.chain'_cons]

/-! ## Recorder session state machine (`Recorder.start_recording`,
`Recorder.start_playback`) -/

/-- The recorder state the session claims depend on. -/
structure RecorderState where
  mode : String
  freq : Int
  frames : List RecordingFrame
  recording : Bool
  playing : Bool
  playback_speed : ℚ
  repeat_count : Nat
  current_repeat : Nat
deriving DecidableEq

/-- `Recorder.start_recording(mode=None)`: rejected (`"Already
recording"` report, no state change) when a recording is active;
otherwise optionally switches mode, clears the frame list and sets the
recording flag (the realtime sampling thread is not modelled). The bool
reports whether the start proceeded. -/
def start_recording (st : RecorderState) (mode : Option String) : RecorderState × Bool :=
  if st.recording then (st, false)
  else
    let st1 := match mode with
      | some m => { st with mode := m }
      | none => st
    ({ st1 with frames := [], recording := true }, true)

/-- `Recorder.start_playback(speed=1.0, repeat_count=1)`: rejected when a
playback is active or when there are no frames; otherwise sets the
playing flag and the playback parameters (the playback thread is not
modelled). Note: the recording flag is not consulted. -/
def start_playback (st : RecorderState) (speed : ℚ) (repeat_count : Nat) :
    RecorderState × Bool :=
  if st.playing then (st, false)
  else if st.frames.isEmpty then (st, false)
  else
    ({ st with
        playing := true
        playback_speed := speed
        repeat_count := repeat_count
        current_repeat := 0 }, true)

/-- A recorder that is currently recording (one frame captured so far),
not playing. -/
def recStateC6 : RecorderState :=
  { mode := "frame", freq := 20, frames := [demoFrameC5], recording := true,
    playing := false, playback_speed := 1, repeat_count := 1, current_repeat := 0 }

/-- A recorder that is currently playing, not recording. -/
def playStateC6 : RecorderState :=
  { mode := "frame", freq := 20, frames := [demoFrameC5], recording := false,
    playing := true, playback_speed := 1, repeat_count := 1, current_repeat := 0 }

/-- C6 counterexample: `start_playback` while a recording session is
active is not rejected — it proceeds and leaves both flags set — and
`start_recording` while a playback session is active likewise proceeds,
so recording and playback can be active at the same time. -/
theorem recording_playback_not_exclusive :
    ((start_playback recStateC6 1 1).2 = true ∧
      (start_playback recStateC6 1 1).1.recording = true ∧
      (start_playback recStateC6 1 1).1.playing = true) ∧
    ((start_recording playStateC6 none).2 = true ∧
      (start_recording playStateC6 none).1.playing = true ∧
      (start_recording playStateC6 none).1.recording = true) := by
  decide

/-- C6 (amended): each session kind excludes only itself — starting
playback while a playback is active, or recording while a recording is
active, is rejected and leaves the state unchanged; but recording and
playback are not mutually exclusive: starting playback while only a
recording is active (with at least one frame captured) proceeds and
leaves both sessions active. -/
theorem per_session_exclusion (st₁ st₂ st₃ : RecorderState) (speed : ℚ)
    (rc : Nat) (m : Option String)
    (h₁ : st₁.playing = true) (h₂ : st₂.recording = true)
    (h₃r : st₃.recording = true) (h₃p : st₃.playing = false) (h₃f : st₃.frames ≠ []) :
    start_playback st₁ speed rc = (st₁, false) ∧
    start_recording st₂ m = (st₂, false) ∧
    ((start_playback st₃ speed rc).2 = true ∧
      (start_playback st₃ speed rc).1.recording = true ∧
      (start_playback st₃ speed rc).1.playing = true) := by
  refine ⟨?_, ?_, ?_⟩
  · unfold start_playback
    rw [h₁]
    simp
  · unfold start_recording
    rw [h₂]
    simp
  · unfold start_playback
    rw [h₃p]
    simp [List.isEmpty_iff, h₃f, h₃r]

/-- Witness for C6 (amended) on the concrete recorder states. -/
theorem per_session_exclusion_witness :
    start_playback playStateC6 1 1 = (playStateC6, false) ∧
    start_recording recStateC6 none = (recStateC6, false) ∧
    ((start_playback recStateC6 1 1).2 = true ∧
      (start_playback recStateC6 1 1).1.recording = true ∧
      (start_playback recStateC6 1 1).1.playing = true) :=
  per_session_exclusion playStateC6 recStateC6 recStateC6 1 1 none
    rfl rfl rfl rfl (by decide)

/-! ## Calibration state machine (`src/core/servo_manager.py`) -/

/-- The `ServoManager` state the calibration claims depend on: the
17-servo registry, the calibration-active flag and each servo's
accumulated sample sequence (the dict created by `start_calibration` with
keys 1–17). -/
structure ManagerState where
  servos : Nat → Servo
  calibration_active : Bool
  calibration_data : Nat → List Int

/-- `ServoManager.start_calibration`: returns `False` when already
calibrating (no state change); otherwise resets the sample sequences,
sets the active flag and spawns the 10 Hz sampler (not modelled). -/
def start_calibration (st : ManagerState) : ManagerState × Bool :=
  if st.calibration_active then (st, false)
  else ({ st with calibration_data := fun _ => [], calibration_active := true }, true)

/-- Python `min` over a list, as used by `save_calibration_data` on a
sample sequence (guarded nonempty by `if data['positions']`; the `[]`
case is unreachable there). -/
def listMin : List Int → Int
  | [] => 0
  | x :: xs => xs.foldl min x

/-- Python `max` over a list. -/
def listMax : List Int → Int
  | [] => 0
  | x :: xs => xs.foldl max x

/-- `ServoManager.save_calibration_data`: for every servo id (the
calibration dict's keys are 1–17) with a nonempty sample sequence, the
persisted limit table maps the id to
`{min: min(positions), max: max(positions)}`. The file write is modelled
as succeeding. -/
def save_calibration_data (st : ManagerState) : Nat → Option (Int × Int) :=
  fun servo_id =>
    if 1 ≤ servo_id ∧ servo_id ≤ 17 ∧ st.calibration_data servo_id ≠ [] then
      some (listMin (st.calibration_data servo_id), listMax (st.calibration_data servo_id))
    else none

/-- `Servo.update_limits(min_pos, max_pos)`: replaces the calibrated
range; does not move the servo. -/
def update_limits (sv : Servo) (min_pos max_pos : Int) : Servo :=
  { sv with min_reg := min_pos, max_reg := max_pos }

/-- `ServoManager.stop_calibration`: returns `False` if not calibrating;
otherwise clears the active flag, joins the sampler (not modelled),
persists the limit table via `save_calibration_data`, and on success
applies `update_limits` to every servo with a nonempty sample sequence.
Returns the new state, the persisted table and the success flag. -/
def stop_calibration (st : ManagerState) :
    ManagerState × (Nat → Option (Int × Int)) × Bool :=
  if ¬ st.calibration_active then (st, fun _ => none, false)
  else
    let limits := save_calibration_data st
    let servos' := fun servo_id =>
      match limits servo_id with
      | some lim => update_limits (st.servos servo_id) lim.1 lim.2
      | none => st.servos servo_id
    ({ st with calibration_active := false, servos := servos' }, limits, true)

theorem foldl_min_le_init (xs : List Int) (a : Int) : xs.foldl min a ≤ a := by
  induction xs generalizing a with
  | nil => simp
  | cons x xs ih =>
    simp only [List.foldl_cons]
    exact le_trans (ih (min a x)) (min_le_left a x)

theorem foldl_min_le_mem (xs : List Int) : ∀ (a x : Int), x ∈ xs → xs.foldl min a ≤ x := by
  induction xs with
  | nil => intro a x hx; simp at hx
  | cons y ys ih =>
    intro a x hx
    simp only [List.foldl_cons]
    rcases List.mem_cons.1 hx with rfl | hx
    · exact le_trans (foldl_min_le_init ys (min a x)) (min_le_right a x)
    · exact ih (min a y) x hx

theorem foldl_min_mem (xs : List Int) (a : Int) :
    xs.foldl min a = a ∨ xs.foldl min a ∈ xs := by
  induction xs generalizing a with
  | nil => exact Or.inl rfl
  | cons y ys ih =>
    simp only [List.foldl_cons]
    rcases ih (min a y) with h | h
    · rcases min_choice a y with hm | hm
      · exact Or.inl (h.trans hm)
      · exact Or.inr (by rw [h, hm]; exact List.mem_cons_self y ys)
    · exact Or.inr (List.mem_cons_of_mem y h)

theorem foldl_max_init_le (xs : List Int) (a : Int) : a ≤ xs.foldl max a := by
  induction xs generalizing a with
  | nil => simp
  | cons x xs ih =>
    simp only [List.foldl_cons]
    exact le_trans (le_max_left a x) (ih (max a x))

theorem foldl_max_mem_le (xs : List Int) : ∀ (a x : Int), x ∈ xs → x ≤ xs.foldl max a := by
  induction xs with
  | nil => intro a x hx; simp at hx
  | cons y ys ih =>
    intro a x hx
    simp only [List.foldl_cons]
    rcases List.mem_cons.1 hx with rfl | hx
    · exact le_trans (le_max_right a x) (foldl_max_init_le ys (max a x))
    · exact ih (max a y) x hx

theorem foldl_max_mem (xs : List Int) (a : Int) :
    xs.foldl max a = a ∨ xs.foldl max a ∈ xs := by
  induction xs generalizing a with
  | nil => exact Or.inl rfl
  | cons y ys ih =>
    simp only [List.foldl_cons]
    rcases ih (max a y) with h | h
    · rcases max_choice a y with hm | hm
      · exact Or.inl (h.trans hm)
      · exact Or.inr (by rw [h, hm]; exact List.mem_cons_self y ys)
    · exact Or.inr (List.mem_cons_of_mem y h)

theorem listMin_mem (l : List Int) (h : l ≠ []) : listMin l ∈ l := by
  cases l with
  | nil => exact absurd rfl h
  | cons x xs =>
    rcases foldl_min_mem xs x with hm | hm
    · rw [listMin, hm]; exact List.mem_cons_self x xs
    · exact List.mem_cons_of_mem x hm

theorem listMin_le (l : List Int) (x : Int) (hx : x ∈ l) : listMin l ≤ x := by
  cases l with
  | nil => simp at hx
  | cons y ys =>
    rcases List.mem_cons.1 hx with rfl | hx
    · exact foldl_min_le_init ys x
    · exact foldl_min_le_mem ys y x hx

theorem listMax_mem (l : List Int) (h : l ≠ []) : listMax l ∈ l := by
  cases l with
  | nil => exact absurd rfl h
  | cons x xs =>
    rcases foldl_max_mem xs x with hm | hm
    · rw [listMax, hm]; exact List.mem_cons_self x xs
    · exact List.mem_cons_of_mem x hm

theorem le_listMax (l : List Int) (x : Int) (hx : x ∈ l) : x ≤ listMax l := by
  cases l with
  | nil => simp at hx
  | cons y ys =>
    rcases List.mem_cons.1 hx with rfl | hx
    · exact foldl_max_init_le ys x
    · exact foldl_max_mem_le ys y x hx

/-- C7 (confirmed): for every servo id (1–17) whose calibration sample
sequence is nonempty, `stop_calibration` on an active session succeeds,
persists a limit entry equal to the true minimum and maximum of the
sampled sequence (the persisted min/max is a member of and bounds the
sequence), and applies the same limits to the live servo's calibrated
range. -/
theorem stop_calibration_persists_min_max (st : ManagerState) (servo_id : Nat)
    (hact : st.calibration_active = true) (h1 : 1 ≤ servo_id) (h2 : servo_id ≤ 17)
    (hne : st.calibration_data servo_id ≠ []) :
    (stop_calibration st).2.2 = true ∧
    (stop_calibration st).2.1 servo_id =
      some (listMin (st.calibration_data servo_id), listMax (st.calibration_data servo_id)) ∧
    listMin (st.calibration_data servo_id) ∈ st.calibration_data servo_id ∧
    listMax (st.calibration_data servo_id) ∈ st.calibration_data servo_id ∧
    (∀ x ∈ st.calibration_data servo_id,
      listMin (st.calibration_data servo_id) ≤ x ∧ x ≤ listMax (st.calibration_data servo_id)) ∧
    ((stop_calibration st).1.servos servo_id).min_reg = listMin (st.calibration_data servo_id) ∧
    ((stop_calibration st).1.servos servo_id).max_reg = listMax (st.calibration_data servo_id) := by
  have hsave : save_calibration_data st servo_id =
      some (listMin (st.calibration_data servo_id), listMax (st.calibration_data servo_id)) := by
    unfold save_calibration_data
    rw [if_pos ⟨h1, h2, hne⟩]
  unfold stop_calibration
  rw [if_neg (by rw [hact]; simp)]
  refine ⟨rfl, hsave, listMin_mem _ hne, listMax_mem _ hne,
    fun x hx => ⟨listMin_le _ x hx, le_listMax _ x hx⟩, ?_, ?_⟩
  · show (match save_calibration_data st servo_id with
      | some lim => update_limits (st.servos servo_id) lim.1 lim.2
      | none => st.servos servo_id).min_reg = _
    rw [hsave]
    rfl
  · show (match save_calibration_data st servo_id with
      | some lim => update_limits (st.servos servo_id) lim.1 lim.2
      | none => st.servos servo_id).max_reg = _
    rw [hsave]
    rfl

/-- A manager mid-calibration: servo 3 has sampled positions
`[5, -3, 12]`. -/
def demoCalState : ManagerState :=
  { servos := fun _ => {}, calibration_active := true,
    calibration_data := fun i => if i = 3 then [5, -3, 12] else [] }

/-- Witness for C7 on the concrete calibration session: servo 3's
persisted and applied limits are `min = -3`, `max = 12`. -/
theorem stop_calibration_persists_min_max_witness :
    (stop_calibration demoCalState).2.2 = true ∧
    (stop_calibration demoCalState).2.1 3 =
      some (listMin (demoCalState.calibration_data 3), listMax (demoCalState.calibration_data 3)) ∧
    listMin (demoCalState.calibration_data 3) ∈ demoCalState.calibration_data 3 ∧
    listMax (demoCalState.calibration_data 3) ∈ demoCalState.calibration_data 3 ∧
    (∀ x ∈ demoCalState.calibration_data 3,
      listMin (demoCalState.calibration_data 3) ≤ x ∧
      x ≤ listMax (demoCalState.calibration_data 3)) ∧
    ((stop_calibration demoCalState).1.servos 3).min_reg =
      listMin (demoCalState.calibration_data 3) ∧
    ((stop_calibration demoCalState).1.servos 3).max_reg =
      listMax (demoCalState.calibration_data 3) :=
  stop_calibration_persists_min_max demoCalState 3 rfl (by decide) (by decide) (by decide)

/-- C9 (confirmed): `start_recording` while a recording is active and
`start_calibration` while a calibration is active are both rejected with
a reported failure and leave the session state (frames, samples, flags,
mode) unchanged — no partial effect. -/
theorem second_start_rejected (rst : RecorderState) (m : Option String)
    (cst : ManagerState)
    (h1 : rst.recording = true) (h2 : cst.calibration_active = true) :
    start_recording rst m = (rst, false) ∧ start_calibration cst = (cst, false) := by
  constructor
  · unfold start_recording
    rw [h1]
    simp
  · unfold start_calibration
    rw [h2]
    simp

/-- Witness for C9 on the concrete recording and calibration sessions. -/
theorem second_start_rejected_witness :
    start_recording recStateC6 (some "realtime") = (recStateC6, false) ∧
    start_calibration demoCalState = (demoCalState, false) :=
  second_start_rejected recStateC6 (some "realtime") demoCalState rfl rfl

end SensHand
